import Mathlib

/-!
Verification of the URL-shortener core (github.com/pizza-nz/url-shortener).

Shallow embedding of the Go sources:
- `src/types/types.go`: error values (`Details`, `NotFoundError`, `BadRequestError`,
  `AppError`) and the mutex-guarded `GlobalCounter`.
- `src/database/database.go`: the in-memory store `DatabaseURLMapImpl` and the
  Postgres-backed store `DatabaseURLPGImpl` (the latter modelled from the SQL text of
  its queries; I/O failures of `Begin`/`Exec`/`Commit` are outside the model, which
  describes the semantics of each operation when the store is reachable).
- `src/service/service.go`: `URLServiceImpl.CreateShortenedURL` / `GetLongURL`,
  parametrised by the backing `Database`. The sqids-generated code
  (`s.SqidsGen.Generate(s.CountersArr())`, an external library call) is passed in as
  an explicit argument.
- `src/handlers/handlers.go` and `src/middleware/middleware.go`: the handler methods
  from the point where the HTTP method check and JSON decoding have succeeded, and the
  `DBReadyMiddleware` gate.
- `src/cmd/main.go`: `connectWithRetry`, as a function of the outcomes of the
  connection attempts made at the ticks that fire before the one-minute timeout.

Concurrency: every shared mutable structure in the source (the URL map, the counter)
is guarded by a mutex, so a concurrent execution is an interleaving of atomic
operations; the theorems below quantify over all such serialisations.
-/

set_option autoImplicit false

namespace UrlShortener

/-- Models `types.Details` (`src/types/types.go`): one field/issue pair inside a
`BadRequestError`. -/
structure Details where
  Field : String
  Issue : String

/-- Models the error values used by the program: `types.NotFoundError` (a key),
`types.BadRequestError` (a list of details), and `types.AppError`
(message, internal message, HTTP status, wrapped underlying error — `NewDBError`
produces an `AppError` with status 500). `none` in an `Option GoError` is Go's
`nil` error. -/
inductive GoError where
  | notFound (key : String)
  | badRequest (details : List Details)
  | appError (message : String) (internalMessage : String) (httpStatus : Nat)
      (underlying : Option GoError)

/-- The type assertion `err.(*types.BadRequestError)` used by the service layer. -/
def GoError.isBadRequest : GoError → Bool
  | .badRequest _ => true
  | _ => false

/-- The type assertion `err.(*types.NotFoundError)` used by the service layer. -/
def GoError.isNotFound : GoError → Bool
  | .notFound _ => true
  | _ => false

/-- The HTTP status an error carries, when it is an `AppError`. -/
def GoError.statusOf : GoError → Option Nat
  | .appError _ _ s _ => some s
  | _ => none

/-- The state of a code-to-URL mapping: the Go map `URLs map[string]string` of
`DatabaseURLMapImpl`, or the rows of the Postgres table `table_urls`
(`short_url` primary key, `long_url`). Modelled as an association list; the
operations below only ever insert keys that are absent, so keys stay unique. -/
abbrev URLMap := List (String × String)

/-- Go map lookup `value, exists := m.URLs[key]` (equally, the row of `table_urls`
with `short_url = key`). -/
def URLMap.find : URLMap → String → Option String
  | [], _ => none
  | (k, v) :: rest, key => if k = key then some v else URLMap.find rest key

/-- Models `DatabaseURLMapImpl.Get` (`src/database/database.go` lines 161-169):
returns the stored value, or a `NotFoundError` when the key is absent. -/
def DatabaseURLMapImpl.Get (m : URLMap) (key : String) : Except GoError String :=
  match URLMap.find m key with
  | some value => .ok value
  | none => .error (.notFound key)

/-- Models `DatabaseURLMapImpl.Set` (`src/database/database.go` lines 177-199),
which runs under the write lock: collects empty-key/empty-value details, fails with
a `BadRequestError` when any are present, fails with a `BadRequestError`
("key ... already exists") when the key is present, and otherwise stores the pair.
Returns the Go error (`none` is `nil`) together with the map after the call. -/
def DatabaseURLMapImpl.Set (m : URLMap) (key value : String) : Option GoError × URLMap :=
  let details : List Details :=
    (if key = "" then [⟨"key", "cannot be empty"⟩] else []) ++
    (if value = "" then [⟨"value", "cannot be empty"⟩] else [])
  if details.length > 0 then
    (some (.badRequest details), m)
  else if (URLMap.find m key).isSome then
    (some (.badRequest [⟨"key", "key \x27" ++ key ++ "\x27 already exists"⟩]), m)
  else
    (none, (key, value) :: m)

/-- Models `DatabaseURLPGImpl.Get` (`src/database/database.go` lines 201-212):
`select long_url from table_urls where short_url=$1`; `pgx.ErrNoRows` becomes a
`NotFoundError`. -/
def DatabaseURLPGImpl.Get (tbl : URLMap) (key : String) : Except GoError String :=
  match URLMap.find tbl key with
  | some longURL => .ok longURL
  | none => .error (.notFound key)

/-- Models `DatabaseURLPGImpl.Set` (`src/database/database.go` lines 214-229): the
transaction runs `insert into table_urls(short_url, long_url) values ($1, $2)
on conflict (short_url) do update set short_url=excluded.short_url` and commits.
When `key` is absent the row `(key, value)` is inserted; on conflict the `DO UPDATE`
clause assigns the `short_url` column to `excluded.short_url` — the very key that
conflicted — so the row, in particular its `long_url`, is left unchanged, and the
statement still succeeds. No validation of any kind is performed. -/
def DatabaseURLPGImpl.Set (tbl : URLMap) (key value : String) : Option GoError × URLMap :=
  match URLMap.find tbl key with
  | some _ => (none, tbl)
  | none => (none, (key, value) :: tbl)

/-- A backend as seen through the `database.Database` interface: its `Get` and `Set`
methods, over a state of type `σ`. -/
structure DatabaseModel (σ : Type) where
  Get : σ → String → Except GoError String
  Set : σ → String → String → Option GoError × σ

/-- The in-memory backend (`database.NewDatabaseURLMapImpl`). -/
def mapDatabase : DatabaseModel URLMap :=
  ⟨DatabaseURLMapImpl.Get, DatabaseURLMapImpl.Set⟩

/-- The Postgres backend (`database.DatabaseURLPGImpl`). -/
def pgDatabase : DatabaseModel URLMap :=
  ⟨DatabaseURLPGImpl.Get, DatabaseURLPGImpl.Set⟩

/-- Models `URLServiceImpl.CreateShortenedURL` (`src/service/service.go` lines 39-50).
`shortURL` is the value of `s.SqidsGen.Generate(s.CountersArr())` for this call (the
sqids encoder is an external library). A `BadRequestError` from `Set` is wrapped in a
400 `AppError`, any other `Set` error in a 500 `AppError`; on success the generated
code is returned. The second component is the backend state after the call. -/
def URLServiceImpl.CreateShortenedURL {σ : Type} (db : DatabaseModel σ) (s : σ)
    (shortURL longURL : String) : Except GoError String × σ :=
  match db.Set s shortURL longURL with
  | (some err, s2) =>
    if err.isBadRequest then
      (.error (.appError "Bad request" "Invalid input data" 400 (some err)), s2)
    else
      (.error (.appError "Failed to set URL" "Internal server error" 500 (some err)), s2)
  | (none, s2) => (.ok shortURL, s2)

/-- Models `URLServiceImpl.GetLongURL` (`src/service/service.go` lines 54-63):
a `NotFoundError` from `Get` is wrapped in a 404 `AppError`, any other error in a
500 `AppError`. -/
def URLServiceImpl.GetLongURL {σ : Type} (db : DatabaseModel σ) (s : σ)
    (shortURL : String) : Except GoError String :=
  match db.Get s shortURL with
  | .ok url => .ok url
  | .error err =>
    if err.isNotFound then
      .error (.appError "Not Found" "Service failed to get URL from map" 404 (some err))
    else
      .error (.appError "Internal Server Error" "Failed to retrieve URL" 500 (some err))

/-- One serialised execution of several `CreateShortenedURL` calls against one shared
in-memory store. The write lock inside `DatabaseURLMapImpl.Set` makes each call's
store operation atomic, so a concurrent execution is some ordering of the calls;
`reqs` lists, in that order, each call's generated code and its long URL. Returns the
results the calls observe. -/
def runCreates : URLMap → List (String × String) → List (Except GoError String)
  | _, [] => []
  | m, (code, longURL) :: rest =>
    let step := URLServiceImpl.CreateShortenedURL mapDatabase m code longURL
    step.1 :: runCreates step.2 rest

/-- The codes returned by the calls that returned without error. -/
def successCodes : List (Except GoError String) → List String
  | [] => []
  | .ok c :: rest => c :: successCodes rest
  | .error _ :: rest => successCodes rest

/-- Models `types.GlobalCounter` (`src/types/types.go` lines 58-92): a `uint64`
counter whose methods run under a mutex, so each call is atomic. -/
structure GlobalCounter where
  count : Nat

/-- The `uint64` modulus: arithmetic on `count` wraps at `2 ^ 64 =
18446744073709551616`. -/
def UINT64_MOD : Nat := 18446744073709551616

/-- Models `GlobalCounter.GetAndIncrement` (`src/types/types.go` lines 80-85). The
body is `c.count++` followed by `return c.count`: it increments first and returns the
incremented value. Returns the value the caller observes, and the counter after the
call. -/
def GlobalCounter.GetAndIncrement (c : GlobalCounter) : Nat × GlobalCounter :=
  let newCount := (c.count + 1) % UINT64_MOD
  (newCount, ⟨newCount⟩)

/-- Models `GlobalCounter.Increment` (`src/types/types.go` lines 66-70). -/
def GlobalCounter.Increment (c : GlobalCounter) : GlobalCounter :=
  ⟨(c.count + 1) % UINT64_MOD⟩

/-- Models `GlobalCounter.Count` (`src/types/types.go` lines 73-77). -/
def GlobalCounter.Count (c : GlobalCounter) : Nat :=
  c.count

/-- Models `types.NewGlobalCounter` (`src/types/types.go` lines 88-92): a fresh
counter with `count: 0`. -/
def NewGlobalCounter : GlobalCounter :=
  ⟨0⟩

/-- The values observed by `n` successive `GetAndIncrement` calls, together with the
final counter. -/
def runGetAndIncrement (c : GlobalCounter) : Nat → List Nat × GlobalCounter
  | 0 => ([], c)
  | n + 1 =>
    let step := c.GetAndIncrement
    let rest := runGetAndIncrement step.2 n
    (step.1 :: rest.1, rest.2)

/-- The service value held by the handler (`service.URLService`): at runtime a
`URLServiceImpl` whose `DBURLs` field is either the in-memory store or the Postgres
store, together with that store's state. -/
inductive ActiveService where
  | mapService (db : URLMap)
  | pgService (db : URLMap)

/-- Dispatch of `CreateShortenedURL` through the `service.URLService` interface to the
backend the service was built over. -/
def ActiveService.createShortened : ActiveService → String → String →
    Except GoError String × ActiveService
  | .mapService db, gen, longURL =>
    let r := URLServiceImpl.CreateShortenedURL mapDatabase db gen longURL
    (r.1, .mapService r.2)
  | .pgService db, gen, longURL =>
    let r := URLServiceImpl.CreateShortenedURL pgDatabase db gen longURL
    (r.1, .pgService r.2)

/-- Dispatch of `GetLongURL` through the `service.URLService` interface. -/
def ActiveService.getLong : ActiveService → String → Except GoError String
  | .mapService db, shortURL => URLServiceImpl.GetLongURL mapDatabase db shortURL
  | .pgService db, shortURL => URLServiceImpl.GetLongURL pgDatabase db shortURL

/-- The mutable state the request path reads: the `database` package's `dbReady` flag
(set by `pingDB`, read by `middleware.DBReadyMiddleware`) and the handler's `Service`
field (`ShortenedURLHandlerImpl.Service`, written by `SetServiceURL`; `none` is Go's
`nil`). -/
structure SystemState where
  dbReady : Bool
  Service : Option ActiveService

/-- The state after `main` (`src/cmd/main.go` lines 92-106) has set up the routes:
`dbReady` starts `false` (`src/database/database.go` line 87) and the handler is
registered with a nil service — `routes.RegisterAPIRoutesWithMiddleware(mux, nil)`. -/
def mainInitialState : SystemState :=
  { dbReady := false, Service := none }

/-- The outcome of one `database.StartNewDatabase(conn)` call made by
`connectWithRetry`. The connection string from `config.DBConfig.ConnectionString()`
always starts with `postgres://`, so `StartNewDatabase` first runs `pingDB` (which
sets `dbReady` on success) and then `postgresDB` (migration and pool setup):
`pingFailed` — the ping failed, `dbReady` untouched; `poolFailed` — the ping
succeeded (`dbReady` becomes true) but pool setup failed; `success tbl` — a
`DatabaseURLPGImpl` over the table `tbl` was returned. -/
inductive AttemptOutcome where
  | pingFailed
  | poolFailed
  | success (tbl : URLMap)

/-- Whether an attempt produced a database. -/
def AttemptOutcome.isSuccess : AttemptOutcome → Bool
  | .success _ => true
  | _ => false

/-- The table of the first successful attempt, when one exists. -/
def firstSuccessTable : List AttemptOutcome → Option URLMap
  | [] => none
  | .pingFailed :: rest => firstSuccessTable rest
  | .poolFailed :: rest => firstSuccessTable rest
  | .success tbl :: _ => some tbl

/-- Models `connectWithRetry` (`src/cmd/main.go` lines 57-87): `attempts` lists the
outcomes of the `StartNewDatabase` calls at the 10-second ticks that fire before the
one-minute timeout; an exhausted list is the timeout firing, on which the goroutine
logs the last error and returns. On the first success it calls
`handler.SetServiceURL(service.NewURLService(conn))` — installing the Postgres-backed
service — and returns. Returns the state after the goroutine has returned, together
with the number of `SetServiceURL` calls it made. -/
def connectWithRetry : List AttemptOutcome → SystemState → SystemState × Nat
  | [], st => (st, 0)
  | .pingFailed :: rest, st => connectWithRetry rest st
  | .poolFailed :: rest, st => connectWithRetry rest { st with dbReady := true }
  | .success tbl :: _, st =>
    ({ st with dbReady := true, Service := some (.pgService tbl) }, 1)

/-- Models `ShortenedURLHandlerImpl.CreateShortenedURL` (`src/handlers/handlers.go`
lines 38-71) from the point where the method check and `DecodePayload` have
succeeded: an empty `LongURL` is rejected with a 400 `AppError`; a nil `Service` is
rejected with the 503 `AppError` ("Service Unavaible", "DB is not set up"); otherwise
the service runs (with `gen` as the sqids output for this call) and its result is
forwarded (on success the handler responds 201 with the code). Returns the result and
the state after the call. -/
def ShortenedURLHandlerImpl.CreateShortenedURL (st : SystemState) (gen longURL : String) :
    Except GoError String × SystemState :=
  if longURL = "" then
    (.error (.appError "Bad Request" "bad request with issues: LongURL: Long URL cannot be empty"
      400 (some (.badRequest [⟨"LongURL", "Long URL cannot be empty"⟩]))), st)
  else
    match st.Service with
    | none => (.error (.appError "Service Unavaible" "DB is not set up" 503 none), st)
    | some svc =>
      let r := svc.createShortened gen longURL
      (r.1, { st with Service := some r.2 })

/-- Models `ShortenedURLHandlerImpl.GetShortenedURL` (`src/handlers/handlers.go`
lines 76-98) from the point where the method check has succeeded: a nil `Service` is
rejected with a 500 `AppError` ("Internal Server Error", "service var is nil");
otherwise the service result is forwarded (on success the handler redirects with
status 301). -/
def ShortenedURLHandlerImpl.GetShortenedURL (st : SystemState) (shortURL : String) :
    Except GoError String :=
  match st.Service with
  | none => .error (.appError "Internal Server Error" "service var is nil" 500 none)
  | some svc => svc.getLong shortURL

/-- The create route as registered by `routes.RegisterAPIRoutesWithMiddleware`:
`middleware.DBReadyMiddleware` rejects with a 503 `AppError` while
`database.IsDBReady()` is false, and otherwise runs the handler. -/
def routeCreateShortenedURL (st : SystemState) (gen longURL : String) :
    Except GoError String × SystemState :=
  if !st.dbReady then
    (.error (.appError "Service Not Available" "Database is not ready" 503 none), st)
  else
    ShortenedURLHandlerImpl.CreateShortenedURL st gen longURL

/-- The resolve route: `DBReadyMiddleware` in front of
`ShortenedURLHandlerImpl.GetShortenedURL`. -/
def routeGetShortenedURL (st : SystemState) (shortURL : String) :
    Except GoError String :=
  if !st.dbReady then
    .error (.appError "Service Not Available" "Database is not ready" 503 none)
  else
    ShortenedURLHandlerImpl.GetShortenedURL st shortURL

/-! Helper lemmas about the in-memory store and the service over it. -/

@[simp] theorem find_nil (key : String) : URLMap.find [] key = none := rfl

@[simp] theorem find_cons (k v : String) (m : URLMap) (key : String) :
    URLMap.find ((k, v) :: m) key = if k = key then some v else URLMap.find m key := rfl

theorem find_isSome_cons (k v : String) (m : URLMap) (key : String)
    (h : (URLMap.find m key).isSome) : (URLMap.find ((k, v) :: m) key).isSome := by
  rw [find_cons]
  split <;> simp [h]

/-- Inversion of a successful in-memory create: the call returns the generated code,
both strings were non-empty, the code was absent, and the pair was stored. -/
theorem create_map_ok_inv (m : URLMap) (gen longURL c : String) (m2 : URLMap)
    (h : URLServiceImpl.CreateShortenedURL mapDatabase m gen longURL = (.ok c, m2)) :
    c = gen ∧ gen ≠ "" ∧ longURL ≠ "" ∧ URLMap.find m gen = none ∧
      m2 = (gen, longURL) :: m := by
  by_cases hk : gen = "" <;> by_cases hv : longURL = "" <;>
      rcases hfind : URLMap.find m gen with _ | v0 <;>
      simp [URLServiceImpl.CreateShortenedURL, mapDatabase, DatabaseURLMapImpl.Set,
        GoError.isBadRequest, hk, hv, hfind] at h
  exact ⟨h.1.symm, hk, hv, rfl, h.2.symm⟩

/-- An in-memory create either leaves the store unchanged or succeeds and stores the
pair. -/
theorem create_map_snd (m : URLMap) (gen longURL : String) :
    (URLServiceImpl.CreateShortenedURL mapDatabase m gen longURL).2 = m ∨
      ((URLServiceImpl.CreateShortenedURL mapDatabase m gen longURL).1 = .ok gen ∧
       (URLServiceImpl.CreateShortenedURL mapDatabase m gen longURL).2 =
         (gen, longURL) :: m) := by
  by_cases hk : gen = "" <;> by_cases hv : longURL = "" <;>
      rcases hfind : URLMap.find m gen with _ | v0 <;>
      simp [URLServiceImpl.CreateShortenedURL, mapDatabase, DatabaseURLMapImpl.Set,
        GoError.isBadRequest, hk, hv, hfind]

/-- A code already present in the store is never returned by a later successful
create of a serialised execution: the store only grows, and `Set` rejects a present
key. -/
theorem not_mem_successCodes (reqs : List (String × String)) :
    ∀ (m : URLMap) (k : String), (URLMap.find m k).isSome →
      k ∉ successCodes (runCreates m reqs) := by
  induction reqs with
  | nil =>
    intro m k _hk hmem
    simp [runCreates, successCodes] at hmem
  | cons req rest ih =>
    intro m k hk hmem
    obtain ⟨code, longURL⟩ := req
    cases hstep : URLServiceImpl.CreateShortenedURL mapDatabase m code longURL with
    | mk r m2 =>
      cases r with
      | ok c =>
        have hrun : runCreates m ((code, longURL) :: rest) = .ok c :: runCreates m2 rest := by
          simp [runCreates, hstep]
        rw [hrun] at hmem
        simp only [successCodes] at hmem
        rcases List.mem_cons.mp hmem with hkc | hmem2
        · obtain ⟨hc, _, _, hfind, _⟩ := create_map_ok_inv m code longURL c m2 hstep
          subst hkc hc
          rw [hfind] at hk
          simp at hk
        · obtain ⟨hc, _, _, _, hm2⟩ := create_map_ok_inv m code longURL c m2 hstep
          have hk2 : (URLMap.find m2 k).isSome := by
            rw [hm2]
            exact find_isSome_cons _ _ _ _ hk
          exact ih m2 k hk2 hmem2
      | error e =>
        have hrun : runCreates m ((code, longURL) :: rest) =
            .error e :: runCreates m2 rest := by
          simp [runCreates, hstep]
        rw [hrun] at hmem
        simp only [successCodes] at hmem
        have hm2 : m2 = m := by
          rcases create_map_snd m code longURL with hsnd | ⟨hok, _⟩
          · rw [hstep] at hsnd
            exact hsnd
          · rw [hstep] at hok
            cases hok
        subst hm2
        exact ih m2 k hk hmem

/-- Claim C1: against the in-memory store, if `CreateShortenedURL(longURL)` (with the
sqids output `gen` for this call) returns a code `c` without error, then
`GetLongURL(c)` on the resulting store returns exactly the original `longURL`. -/
theorem c1_create_then_get_roundtrip (m m2 : URLMap) (gen longURL c : String)
    (_hurl : longURL ≠ "")
    (h : URLServiceImpl.CreateShortenedURL mapDatabase m gen longURL = (.ok c, m2)) :
    URLServiceImpl.GetLongURL mapDatabase m2 c = .ok longURL := by
  obtain ⟨hc, _hk, _hv, _hfind, hm2⟩ := create_map_ok_inv m gen longURL c m2 h
  subst hc hm2
  simp [URLServiceImpl.GetLongURL, mapDatabase, DatabaseURLMapImpl.Get, URLMap.find,
    GoError.isNotFound]

/-- Witness for C1 at a concrete input. -/
theorem c1_witness :
    ("http://example.com" : String) ≠ "" ∧
    URLServiceImpl.CreateShortenedURL mapDatabase [] "abc" "http://example.com" =
      (.ok "abc", [("abc", "http://example.com")]) ∧
    URLServiceImpl.GetLongURL mapDatabase [("abc", "http://example.com")] "abc" =
      .ok "http://example.com" :=
  ⟨by decide, rfl,
    c1_create_then_get_roundtrip [] [("abc", "http://example.com")] "abc"
      "http://example.com" "abc" (by decide) rfl⟩

/-- Claim C2: in every serialised execution of concurrent `CreateShortenedURL` calls
against one shared in-memory store (the store's write lock serialises the `Set`
operations; `reqs` is the admitted order), the codes returned by the calls that
returned without error are pairwise distinct. In particular, when all `N` calls
return codes, those `N` codes are pairwise distinct. -/
theorem c2_concurrent_create_codes_distinct (reqs : List (String × String)) :
    ∀ m : URLMap, (successCodes (runCreates m reqs)).Nodup := by
  induction reqs with
  | nil =>
    intro m
    simp [runCreates, successCodes]
  | cons req rest ih =>
    intro m
    obtain ⟨code, longURL⟩ := req
    cases hstep : URLServiceImpl.CreateShortenedURL mapDatabase m code longURL with
    | mk r m2 =>
      cases r with
      | ok c =>
        have hrun : runCreates m ((code, longURL) :: rest) = .ok c :: runCreates m2 rest := by
          simp [runCreates, hstep]
        rw [hrun]
        simp only [successCodes]
        refine List.nodup_cons.mpr ⟨?_, ih m2⟩
        obtain ⟨hc, _, _, _, hm2⟩ := create_map_ok_inv m code longURL c m2 hstep
        subst hc hm2
        apply not_mem_successCodes
        simp
      | error e =>
        have hrun : runCreates m ((code, longURL) :: rest) =
            .error e :: runCreates m2 rest := by
          simp [runCreates, hstep]
        rw [hrun]
        simp only [successCodes]
        exact ih m2

/-- Claim C3 (code bug): the durable `Set` on an already-existing code succeeds, but
it does not overwrite — the `ON CONFLICT` clause updates the `short_url` column to
itself instead of updating `long_url` — so a subsequent `Get` returns the previously
stored URL, not the new one. -/
theorem c3_pg_set_does_not_overwrite :
    DatabaseURLPGImpl.Set [("c1", "urlA")] "c1" "urlB" = (none, [("c1", "urlA")]) ∧
    DatabaseURLPGImpl.Get [("c1", "urlA")] "c1" = .ok "urlA" ∧
    ("urlA" : String) ≠ "urlB" :=
  ⟨rfl, rfl, by decide⟩

/-- Claim C4 (code bug): `GetAndIncrement` increments first and then returns, so a
fresh counter observes 1 on the first call, and `N` successive calls return
`1 .. N`, not `0 .. N-1` as the claim (and the method's own documentation
comment) state. -/
theorem c4_counter_returns_incremented_value :
    (GlobalCounter.GetAndIncrement NewGlobalCounter).1 = 1 ∧
    (runGetAndIncrement NewGlobalCounter 3).1 = [1, 2, 3] ∧
    (runGetAndIncrement NewGlobalCounter 3).1 ≠ [0, 1, 2] := by
  refine ⟨?_, ?_, ?_⟩ <;> decide

/-- Claim C10: every call to the in-memory `Set` that returns an error leaves the
underlying map completely unchanged. -/
theorem c10_set_error_leaves_map_unchanged (m : URLMap) (key value : String)
    (e : GoError) (h : (DatabaseURLMapImpl.Set m key value).1 = some e) :
    (DatabaseURLMapImpl.Set m key value).2 = m := by
  by_cases hk : key = "" <;> by_cases hv : value = "" <;>
      rcases hfind : URLMap.find m key with _ | v0 <;>
      simp [DatabaseURLMapImpl.Set, hk, hv, hfind] at h ⊢

/-- Witness for C10 at a concrete input. -/
theorem c10_witness :
    (DatabaseURLMapImpl.Set [] "" "x").1 =
      some (.badRequest [⟨"key", "cannot be empty"⟩]) ∧
    (DatabaseURLMapImpl.Set [] "" "x").2 = [] :=
  ⟨rfl, c10_set_error_leaves_map_unchanged [] "" "x"
    (.badRequest [⟨"key", "cannot be empty"⟩]) rfl⟩

/-- Claim C6: against the in-memory store, `Set` on a code that already maps to some
URL fails with the duplicate-key `BadRequestError` — whose detail differs from the
ones validation errors carry — and never overwrites: the map is unchanged and `Get`
still returns the original URL. -/
theorem c6_inmemory_set_conflict (m : URLMap) (code url url2 : String)
    (hk : code ≠ "") (hv : url2 ≠ "") (hfound : URLMap.find m code = some url) :
    DatabaseURLMapImpl.Set m code url2 =
      (some (.badRequest [⟨"key", "key \x27" ++ code ++ "\x27 already exists"⟩]), m) ∧
    ("key \x27" ++ code ++ "\x27 already exists" : String) ≠ "cannot be empty" ∧
    DatabaseURLMapImpl.Get m code = .ok url := by
  refine ⟨?_, ?_, ?_⟩
  · simp [DatabaseURLMapImpl.Set, hk, hv, hfound]
  · intro hcontra
    have hlen := congrArg String.length hcontra
    rw [String.length_append, String.length_append] at hlen
    have h1 : ("key \x27" : String).length = 5 := rfl
    have h2 : ("\x27 already exists" : String).length = 16 := rfl
    have h3 : ("cannot be empty" : String).length = 15 := rfl
    rw [h1, h2, h3] at hlen
    omega
  · simp [DatabaseURLMapImpl.Get, hfound]

/-- Witness for C6 at a concrete input. -/
theorem c6_witness :
    (("abc" : String) ≠ "" ∧ ("http://b.com" : String) ≠ "" ∧
      URLMap.find [("abc", "http://a.com")] "abc" = some "http://a.com") ∧
    (DatabaseURLMapImpl.Set [("abc", "http://a.com")] "abc" "http://b.com" =
      (some (.badRequest [⟨"key", "key \x27" ++ "abc" ++ "\x27 already exists"⟩]),
        [("abc", "http://a.com")]) ∧
    ("key \x27" ++ "abc" ++ "\x27 already exists" : String) ≠ "cannot be empty" ∧
    DatabaseURLMapImpl.Get [("abc", "http://a.com")] "abc" = .ok "http://a.com") :=
  ⟨⟨by decide, by decide, rfl⟩,
    c6_inmemory_set_conflict [("abc", "http://a.com")] "abc" "http://a.com"
      "http://b.com" (by decide) (by decide) rfl⟩

/-- Counterexample to Claim C7: the durable `Set` performs no validation — with an
empty URL it succeeds instead of failing with a `ValidationError`, and consequently
`CreateShortenedURL` with an empty long URL succeeds against the durable backend. -/
theorem c7_counterexample :
    DatabaseURLPGImpl.Set [] "c" "" = (none, [("c", "")]) ∧
    (URLServiceImpl.CreateShortenedURL pgDatabase [] "c" "").1 = .ok "c" :=
  ⟨rfl, rfl⟩

/-- Claim C7 as amended: only the in-memory `Set` validates: it fails with a
`BadRequestError` (leaving the map unchanged) whenever code or url is empty, and
`CreateShortenedURL` against the in-memory backend fails with a 400 wrapped
`BadRequestError` for an empty long URL; the durable `Set` returns no error for the
same inputs, and `CreateShortenedURL` with an empty long URL succeeds against the
durable backend. -/
theorem c7_validation_only_inmemory (m tbl : URLMap) (key value gen : String)
    (hempty : key = "" ∨ value = "") :
    (∃ ds, ds ≠ [] ∧ DatabaseURLMapImpl.Set m key value = (some (.badRequest ds), m)) ∧
    (∃ ds, (URLServiceImpl.CreateShortenedURL mapDatabase m gen "").1 =
      .error (.appError "Bad request" "Invalid input data" 400 (some (.badRequest ds)))) ∧
    (DatabaseURLPGImpl.Set tbl key value).1 = none ∧
    (URLServiceImpl.CreateShortenedURL pgDatabase tbl gen "").1 = .ok gen := by
  refine ⟨?_, ?_, ?_, ?_⟩
  · by_cases hk : key = "" <;> by_cases hv : value = ""
    · exact ⟨[⟨"key", "cannot be empty"⟩, ⟨"value", "cannot be empty"⟩], by simp,
        by simp [DatabaseURLMapImpl.Set, hk, hv]⟩
    · exact ⟨[⟨"key", "cannot be empty"⟩], by simp,
        by simp [DatabaseURLMapImpl.Set, hk, hv]⟩
    · exact ⟨[⟨"value", "cannot be empty"⟩], by simp,
        by simp [DatabaseURLMapImpl.Set, hk, hv]⟩
    · rcases hempty with h | h
      · exact absurd h hk
      · exact absurd h hv
  · by_cases hg : gen = ""
    · exact ⟨[⟨"key", "cannot be empty"⟩, ⟨"value", "cannot be empty"⟩],
        by simp [URLServiceImpl.CreateShortenedURL, mapDatabase, DatabaseURLMapImpl.Set,
          GoError.isBadRequest, hg]⟩
    · exact ⟨[⟨"value", "cannot be empty"⟩],
        by simp [URLServiceImpl.CreateShortenedURL, mapDatabase, DatabaseURLMapImpl.Set,
          GoError.isBadRequest, hg]⟩
  · rcases hfind : URLMap.find tbl key with _ | v <;>
      simp [DatabaseURLPGImpl.Set, hfind]
  · rcases hfind : URLMap.find tbl gen with _ | v <;>
      simp [URLServiceImpl.CreateShortenedURL, pgDatabase, DatabaseURLPGImpl.Set, hfind]

/-- Witness for the amended C7 at a concrete input. -/
theorem c7_witness :
    (("" : String) = "" ∨ ("x" : String) = "") ∧
    ((∃ ds, ds ≠ [] ∧ DatabaseURLMapImpl.Set [] "" "x" = (some (.badRequest ds), [])) ∧
    (∃ ds, (URLServiceImpl.CreateShortenedURL mapDatabase [] "g" "").1 =
      .error (.appError "Bad request" "Invalid input data" 400 (some (.badRequest ds)))) ∧
    (DatabaseURLPGImpl.Set [] "" "x").1 = none ∧
    (URLServiceImpl.CreateShortenedURL pgDatabase [] "g" "").1 = .ok "g") :=
  ⟨Or.inl rfl, c7_validation_only_inmemory [] [] "" "x" "g" (Or.inl rfl)⟩

/-- With no successful attempt, `connectWithRetry` never calls `SetServiceURL` and
leaves the service reference exactly as it was. -/
theorem connectWithRetry_no_success (attempts : List AttemptOutcome) :
    ∀ st : SystemState, (attempts.all fun a => !a.isSuccess) = true →
      (connectWithRetry attempts st).2 = 0 ∧
      (connectWithRetry attempts st).1.Service = st.Service := by
  induction attempts with
  | nil =>
    intro st _h
    exact ⟨rfl, rfl⟩
  | cons a rest ih =>
    intro st h
    rw [List.all_cons, Bool.and_eq_true] at h
    cases a with
    | pingFailed => exact ih st h.2
    | poolFailed => exact ih _ h.2
    | success tbl => simp [AttemptOutcome.isSuccess] at h

/-- Counterexample to Claim C5: when every connection attempt fails until the
deadline, the retry goroutine stops, but the service does not answer requests
against a transient in-memory backend — no such backend was ever installed, and both
routes reject every request (here with the 503 of the DB-ready gate). -/
theorem c5_counterexample :
    (connectWithRetry [AttemptOutcome.pingFailed, AttemptOutcome.pingFailed,
        AttemptOutcome.pingFailed, AttemptOutcome.pingFailed, AttemptOutcome.pingFailed]
        mainInitialState).2 = 0 ∧
    (routeCreateShortenedURL
        (connectWithRetry [AttemptOutcome.pingFailed, AttemptOutcome.pingFailed,
          AttemptOutcome.pingFailed, AttemptOutcome.pingFailed, AttemptOutcome.pingFailed]
          mainInitialState).1 "abc" "http://example.com").1 =
      .error (.appError "Service Not Available" "Database is not ready" 503 none) ∧
    routeGetShortenedURL
        (connectWithRetry [AttemptOutcome.pingFailed, AttemptOutcome.pingFailed,
          AttemptOutcome.pingFailed, AttemptOutcome.pingFailed, AttemptOutcome.pingFailed]
          mainInitialState).1 "abc" =
      .error (.appError "Service Not Available" "Database is not ready" 503 none) :=
  ⟨rfl, rfl, rfl⟩

/-- Claim C5 as amended: if every connection attempt fails until the deadline
elapses, the supervisor stops retrying without ever installing a service, and
afterwards the process rejects both operations instead of answering them against a
transient backend: create is refused with a 503 (by the DB-ready gate, or by the
nil-service check when a ping had succeeded), and resolve with a 503 or the
nil-service 500. -/
theorem c5_gave_up_service_rejects (attempts : List AttemptOutcome)
    (h : (attempts.all fun a => !a.isSuccess) = true)
    (gen longURL code : String) (hurl : longURL ≠ "") :
    (connectWithRetry attempts mainInitialState).2 = 0 ∧
    (∃ e, (routeCreateShortenedURL (connectWithRetry attempts mainInitialState).1
        gen longURL).1 = .error e ∧ GoError.statusOf e = some 503) ∧
    (∃ e, routeGetShortenedURL (connectWithRetry attempts mainInitialState).1 code =
        .error e ∧ (GoError.statusOf e = some 503 ∨ GoError.statusOf e = some 500)) := by
  obtain ⟨h0, hs⟩ := connectWithRetry_no_success attempts mainInitialState h
  have hnone : (connectWithRetry attempts mainInitialState).1.Service = none := by
    rw [hs]
    rfl
  refine ⟨h0, ?_, ?_⟩
  · cases hready : (connectWithRetry attempts mainInitialState).1.dbReady
    · exact ⟨.appError "Service Not Available" "Database is not ready" 503 none,
        by simp [routeCreateShortenedURL, hready], rfl⟩
    · exact ⟨.appError "Service Unavaible" "DB is not set up" 503 none,
        by simp [routeCreateShortenedURL, hready,
          ShortenedURLHandlerImpl.CreateShortenedURL, hurl, hnone], rfl⟩
  · cases hready : (connectWithRetry attempts mainInitialState).1.dbReady
    · exact ⟨.appError "Service Not Available" "Database is not ready" 503 none,
        by simp [routeGetShortenedURL, hready], Or.inl rfl⟩
    · exact ⟨.appError "Internal Server Error" "service var is nil" 500 none,
        by simp [routeGetShortenedURL, hready,
          ShortenedURLHandlerImpl.GetShortenedURL, hnone], Or.inr rfl⟩

/-- Witness for the amended C5 at a concrete input. -/
theorem c5_witness :
    ((([AttemptOutcome.pingFailed, AttemptOutcome.poolFailed].all
        fun a => !a.isSuccess) = true) ∧ ("http://example.com" : String) ≠ "") ∧
    ((connectWithRetry [AttemptOutcome.pingFailed, AttemptOutcome.poolFailed]
        mainInitialState).2 = 0 ∧
    (∃ e, (routeCreateShortenedURL
        (connectWithRetry [AttemptOutcome.pingFailed, AttemptOutcome.poolFailed]
          mainInitialState).1 "g" "http://example.com").1 = .error e ∧
        GoError.statusOf e = some 503) ∧
    (∃ e, routeGetShortenedURL
        (connectWithRetry [AttemptOutcome.pingFailed, AttemptOutcome.poolFailed]
          mainInitialState).1 "c" = .error e ∧
        (GoError.statusOf e = some 503 ∨ GoError.statusOf e = some 500))) :=
  ⟨⟨rfl, by decide⟩,
    c5_gave_up_service_rejects [AttemptOutcome.pingFailed, AttemptOutcome.poolFailed]
      rfl "g" "http://example.com" "c" (by decide)⟩

/-- Counterexample to Claim C8: with the handler's service reference unset,
`GetShortenedURL` fails with a 500 `AppError`, not an Unavailable 503. -/
theorem c8_counterexample :
    ShortenedURLHandlerImpl.GetShortenedURL { dbReady := true, Service := none } "abc" =
      .error (.appError "Internal Server Error" "service var is nil" 500 none) ∧
    (500 : Nat) ≠ 503 :=
  ⟨rfl, by decide⟩

/-- Claim C8 as amended: with the service reference unset, `CreateShortenedURL` (for
a decoded non-empty long URL) fails with the 503 "Service Unavaible" `AppError`,
while `GetShortenedURL` fails with the 500 "Internal Server Error" `AppError`
("service var is nil"), not a 503. -/
theorem c8_nil_service_statuses (st : SystemState) (hsvc : st.Service = none)
    (gen longURL code : String) (hurl : longURL ≠ "") :
    (ShortenedURLHandlerImpl.CreateShortenedURL st gen longURL).1 =
      .error (.appError "Service Unavaible" "DB is not set up" 503 none) ∧
    ShortenedURLHandlerImpl.GetShortenedURL st code =
      .error (.appError "Internal Server Error" "service var is nil" 500 none) := by
  constructor
  · simp [ShortenedURLHandlerImpl.CreateShortenedURL, hurl, hsvc]
  · simp [ShortenedURLHandlerImpl.GetShortenedURL, hsvc]

/-- Witness for the amended C8 at a concrete input. -/
theorem c8_witness :
    (mainInitialState.Service = none ∧ ("http://example.com" : String) ≠ "") ∧
    ((ShortenedURLHandlerImpl.CreateShortenedURL mainInitialState "g"
        "http://example.com").1 =
      .error (.appError "Service Unavaible" "DB is not set up" 503 none) ∧
    ShortenedURLHandlerImpl.GetShortenedURL mainInitialState "c" =
      .error (.appError "Internal Server Error" "service var is nil" 500 none)) :=
  ⟨⟨rfl, by decide⟩,
    c8_nil_service_statuses mainInitialState rfl "g" "http://example.com" "c" (by decide)⟩

/-- Counterexample to Claim C9: before the first successful attempt the handler's
service reference is nil, not the transient in-memory backend, so the single swap
goes from no backend to the durable backend. -/
theorem c9_counterexample :
    mainInitialState.Service = none ∧
    (connectWithRetry [AttemptOutcome.success []] mainInitialState).1.Service =
      some (.pgService []) ∧
    mainInitialState.Service ≠ some (.mapService []) := by
  refine ⟨rfl, rfl, ?_⟩
  simp [mainInitialState]

/-- Claim C9 as amended: over every execution of the startup retry protocol, the
service reference is replaced at most once — on the first successful connection
attempt — going from its initial value (nil: `main` registers the handler with no
service) to the durable Postgres-backed service, and it is never swapped back or
swapped a second time: with no success it is left untouched, and after a success the
goroutine returns. -/
theorem c9_swap_at_most_once (attempts : List AttemptOutcome) :
    ∀ st : SystemState,
      (connectWithRetry attempts st).2 ≤ 1 ∧
      (connectWithRetry attempts st).1.Service =
        (match firstSuccessTable attempts with
         | some tbl => some (.pgService tbl)
         | none => st.Service) ∧
      mainInitialState.Service = none := by
  induction attempts with
  | nil =>
    intro st
    exact ⟨Nat.zero_le 1, rfl, rfl⟩
  | cons a rest ih =>
    intro st
    cases a with
    | pingFailed => exact ih st
    | poolFailed => exact ih { st with dbReady := true }
    | success tbl => exact ⟨Nat.le_refl 1, rfl, rfl⟩

end UrlShortener
